import Mathlib

/-!
Verification of the ldapcherry Active-Directory backend adapter
(ldapcherry/backend/backendAD.py) and of the role-catalog loader
described by the design document.

The Python code is shallowly embedded: pure computations (DN derivation,
password encoding, attribute-map rewriting, group-name routing) become
Lean functions over String and List; the stateful directory calls
(bind, search, modify, unbind) become explicit event traces, with
failure of an external call injected through an oracle argument.
-/

set_option maxHeartbeats 1000000

namespace Ldapcherry

/-! Byte-level encodings.  Python bytes are modelled as List Nat. -/

/-- UTF-16 little-endian encoding of one unicode code point, as Python
str.encode with the utf-16-le codec produces it. -/
def utf16leCodepoint (c : Nat) : List Nat :=
  if c < 0x10000 then [c % 256, (c / 256) % 256]
  else
    let v := c - 0x10000
    let hi := 0xD800 + v / 0x400
    let lo := 0xDC00 + v % 0x400
    [hi % 256, (hi / 256) % 256, lo % 256, (lo / 256) % 256]

/-- UTF-16 little-endian encoding of a whole string. -/
def utf16le (s : String) : List Nat :=
  s.data.foldr (fun c acc => utf16leCodepoint c.toNat ++ acc) []

/-- ASCII bytes of a string, as Python byte literals such as b'512'. -/
def asciiBytes (s : String) : List Nat :=
  s.data.map Char.toNat

/-! UserAccountControl flag values from backendAD.py. -/

def SCRIPT : Nat := 0x0001
def ACCOUNTDISABLE : Nat := 0x0002
def NORMAL_ACCOUNT : Nat := 0x0200

/-- The closed list of Active-Directory built-in group names,
AD_BUILTIN_GROUPS in backendAD.py. -/
def AD_BUILTIN_GROUPS : List String := [
  "Pre-Windows 2000 Compatible Access",
  "Windows Authorization Access Group",
  "Certificate Service DCOM Access",
  "Network Configuration Operators",
  "Terminal Server License Servers",
  "Incoming Forest Trust Builders",
  "Performance Monitor Users",
  "Cryptographic Operators",
  "Distributed COM Users",
  "Performance Log Users",
  "Remote Desktop Users",
  "Account Operators",
  "Event Log Readers",
  "Backup Operators",
  "Server Operators",
  "Print Operators",
  "Administrators",
  "Replicator",
  "IIS_IUSRS",
  "Guests",
  "Users"]

/-! Character-level string helpers used by the constructor
(re.sub substitution and str.split). -/

/-- Replacement of every dot by the four characters ",DC=", exactly the
Python expression re.sub(r'\.', ',DC=', domain). -/
def subDots : List Char → List Char
  | [] => []
  | c :: rest =>
    if c = '.' then ',' :: 'D' :: 'C' :: '=' :: subDots rest
    else c :: subDots rest

/-- Splitting a character list on the dot character, exactly the Python
expression domain.split("."). -/
def splitDot : List Char → List (List Char)
  | [] => [[]]
  | c :: rest =>
    if c = '.' then [] :: splitDot rest
    else
      match splitDot rest with
      | [] => [[c]]
      | g :: gs => (c :: g) :: gs

/-- Joining label groups with ",DC=" separators (no tag on the first
group); subDots computes exactly this of splitDot. -/
def dcJoinTail : List (List Char) → List Char
  | [] => []
  | [g] => g
  | g :: gs => g ++ (',' :: 'D' :: 'C' :: '=' :: dcJoinTail gs)

/-- Written from the specification sentence for the refinement
comparison of claim C7: every component joined as an uppercase "DC="
segment, comma separated. -/
def specDcJoin : List (List Char) → List Char
  | [] => []
  | [g] => 'D' :: 'C' :: '=' :: g
  | g :: gs => 'D' :: 'C' :: '=' :: (g ++ (',' :: specDcJoin gs))

/-- Base DN that the specification words of claim C7 describe:
splitting the domain on dots and joining the components as "DC="
segments. -/
def specBasedn (domain : String) : String :=
  String.mk (specDcJoin (splitDot domain.data))

/-! The adapter state computed by Backend.__init__ of backendAD.py. -/

structure ADState where
  domain : String
  binddn : String
  basedn : String
  userdn : String
  groupdn : String
  builtin : String
  attrlist : List String
deriving DecidableEq, Repr

inductive InitErr
  | missingAttr
deriving DecidableEq, Repr

/-! Directory-session events and errors.  A backend operation is
embedded as a function returning the list of session events it emits
together with its Python result (normal value or raised exception). -/

inductive LdapErr
  | invalidCredentials
  | serverDown
  | noSuchObject
  | other (code : Nat)
deriving DecidableEq, Repr

inductive PyErr
  | keyError (k : String)
  | ldap (e : LdapErr)
deriving DecidableEq, Repr

abbrev AttrMap := List (String × String)

inductive ModTy
  | replace
  | addVal
  | delVal
deriving DecidableEq, Repr

structure ModOp where
  ty : ModTy
  attr : String
  vals : List (List Nat)
deriving DecidableEq, Repr

inductive Event
  | connect
  | bind (who : String)
  | bindAs (who : String)
  | unbind
  | search (base : String) (filt : String)
  | modify (dn : String) (ops : List ModOp)
  | genericAddUser (attrs : AttrMap)
  | genericSetAttrs (username : String) (attrs : AttrMap)
  | deleteEntry (dn : String)
deriving DecidableEq, Repr

/-- Outcome oracle: the n-th fallible external call of one backend
method either succeeds (none) or raises the given ldap error. -/
abbrev Oracle := Nat → Option LdapErr

def isModify : Event → Bool
  | .modify _ _ => true
  | _ => false

def isPwModify : Event → Bool
  | .modify _ ops => ops.any (fun m => m.attr == "unicodePwd")
  | _ => false

/-- Backend.__init__ of backendAD.py, restricted to the computation of
the derived distinguished names and the required-attribute check.  The
constructor performs no directory call, hence the (always empty) event
trace in the result.  The _byte_p2 encoding of attribute names is the
identity in this model (it is an injective text-to-bytes conversion). -/
def initAD (domain login : String) (attrslist : List String) :
    List Event × Except InitErr ADState :=
  let basedn := "dc=" ++ String.mk (subDots domain.data)
  let binddn := login ++ "@" ++ domain
  let firstLabel := String.mk ((splitDot domain.data).headD [])
  let userdn := "OU=Users,OU=" ++ firstLabel ++ "," ++ basedn
  let builtin := "CN=Builtin," ++ basedn
  if "cn" ∈ attrslist then
    if "unicodePwd" ∈ attrslist then
      ([], .ok ⟨domain, binddn, basedn, userdn, userdn, builtin, attrslist⟩)
    else ([], .error .missingAttr)
  else ([], .error .missingAttr)

/-- Backend._build_groupdn of backendAD.py: route each requested group
name to the builtin subtree or the ordinary group container by an
explicit membership test against AD_BUILTIN_GROUPS. -/
def build_groupdn (st : ADState) (groups : List String) : List String :=
  groups.map (fun group =>
    if group ∈ AD_BUILTIN_GROUPS then "cn=" ++ group ++ "," ++ st.builtin
    else "cn=" ++ group ++ "," ++ st.groupdn)

/-! Python dict primitives on attribute mappings (unique keys,
insertion ordered), as used by add_user and set_attrs. -/

/-- Dict read, attrs[k] when present. -/
def amGet : AttrMap → String → Option String
  | [], _ => none
  | (k1, v) :: rest, k => if k1 = k then some v else amGet rest k

/-- Dict deletion, del attrs[k]. -/
def amErase : AttrMap → String → AttrMap
  | [], _ => []
  | (k1, v) :: rest, k => if k1 = k then amErase rest k else (k1, v) :: amErase rest k

/-- Dict write, attrs[k] = v (overwrites in place, else appends). -/
def amSet : AttrMap → String → String → AttrMap
  | [], k, v => [(k, v)]
  | (k1, v1) :: rest, k, v =>
    if k1 = k then (k, v) :: rest else (k1, v1) :: amSet rest k v

/-- Backend._set_password of backendAD.py.  The reachable body binds a
service session, builds the target DN, and issues one replace
modification of unicodePwd carrying the quote-wrapped UTF-16-LE encoded
password; it then returns.  No unbind is reachable (the code after the
early return is dead and is not modelled).  Oracle call 0 is _bind,
call 1 is modify_s. -/
def set_password (st : ADState) (o : Oracle) (name password : String) (by_cn : Bool) :
    List Event × Except PyErr Unit :=
  let password_value := utf16le ("\"" ++ password ++ "\"")
  match o 0 with
  | some e => ([], .error (.ldap e))
  | none =>
    let dn := if by_cn then "CN=" ++ name ++ "," ++ st.userdn else name
    let ops : List ModOp := [⟨ModTy.replace, "unicodePwd", [password_value]⟩]
    match o 1 with
    | some e => ([.bind st.binddn, .modify dn ops], .error (.ldap e))
    | none => ([.bind st.binddn, .modify dn ops], .ok ())

/-- Backend.add_user of backendAD.py.  The caller's attribute dict is
mutated in place (the second component of the result is its state when
the call returns or raises): unicodePwd is popped, userPrincipalName is
injected as key-attribute@domain, displayName is overwritten with cn;
then the generic creation path runs, and two follow-up replace
modifications set the password and the UserAccountControl flags before
the session is unbound.  Oracle call 0 is the generic add, 1 is _bind,
2 the password modify, 3 the flags modify.  No branch deletes the
created entry. -/
def add_user (st : ADState) (o : Oracle) (attrs : AttrMap) :
    List Event × AttrMap × Except PyErr Unit :=
  match amGet attrs "unicodePwd" with
  | none => ([], attrs, .error (.keyError "unicodePwd"))
  | some password =>
    let a1 := amErase attrs "unicodePwd"
    match amGet a1 "sAMAccountName" with
    | none => ([], a1, .error (.keyError "sAMAccountName"))
    | some sam =>
      let a2 := amSet a1 "userPrincipalName" (sam ++ "@" ++ st.domain)
      match amGet a2 "cn" with
      | none => ([], a2, .error (.keyError "cn"))
      | some cnv =>
        let a3 := amSet a2 "displayName" cnv
        match o 0 with
        | some e => ([.genericAddUser a3], a3, .error (.ldap e))
        | none =>
          match o 1 with
          | some e => ([.genericAddUser a3], a3, .error (.ldap e))
          | none =>
            let dn := "CN=" ++ cnv ++ "," ++ st.userdn
            let pwOp : List ModOp :=
              [⟨ModTy.replace, "unicodePwd", [utf16le ("\"" ++ password ++ "\"")]⟩]
            let uacOp : List ModOp :=
              [⟨ModTy.replace, "UserAccountControl", [asciiBytes "512"]⟩]
            match o 2 with
            | some e =>
              ([.genericAddUser a3, .bind st.binddn, .modify dn pwOp], a3, .error (.ldap e))
            | none =>
              match o 3 with
              | some e =>
                ([.genericAddUser a3, .bind st.binddn, .modify dn pwOp, .modify dn uacOp],
                 a3, .error (.ldap e))
              | none =>
                ([.genericAddUser a3, .bind st.binddn, .modify dn pwOp, .modify dn uacOp,
                  .unbind], a3, .ok ())

/-- Backend.set_attrs of backendAD.py.  When the caller's dict carries
unicodePwd it is popped (mutating the caller's dict), the user's DN is
resolved, and _set_password runs with by_cn False; afterwards the
generic set_attrs path runs on the remaining attributes.  getUser is
the inherited _get_user lookup, an opaque resolver here. -/
def set_attrs (st : ADState) (getUser : String → Except PyErr String) (o : Oracle)
    (username : String) (attrs : AttrMap) :
    List Event × AttrMap × Except PyErr Unit :=
  match amGet attrs "unicodePwd" with
  | none => ([.genericSetAttrs username attrs], attrs, .ok ())
  | some password =>
    let a1 := amErase attrs "unicodePwd"
    match getUser username with
    | .error e => ([], a1, .error e)
    | .ok userdn =>
      match set_password st o userdn password false with
      | (t, .error e) => (t, a1, .error e)
      | (t, .ok _) => (t ++ [.genericSetAttrs username a1], a1, .ok ())

/-- One directory entry returned by a group search; cn is the value of
the entry's CN attribute that get_groups extracts. -/
structure GroupEntry where
  dn : String
  cn : String
deriving DecidableEq, Repr

/-- Backend._search_group of backendAD.py: bind, subtree search under
the given base, unbind on both the normal and the error exit (the
inherited _exception_handler re-raises every search failure). -/
def search_group (st : ADState) (bindO : Option LdapErr)
    (searchO : String → String → Except LdapErr (List GroupEntry))
    (searchfilter groupdn : String) :
    List Event × Except PyErr (List GroupEntry) :=
  match bindO with
  | some e => ([], .error (.ldap e))
  | none =>
    match searchO groupdn searchfilter with
    | .error e => ([.bind st.binddn, .search groupdn searchfilter, .unbind], .error (.ldap e))
    | .ok r => ([.bind st.binddn, .search groupdn searchfilter, .unbind], .ok r)

/-- ldap.filter.escape_filter_chars on one character. -/
def escapeChar (c : Char) : List Char :=
  if c = '\\' then ['\\', '5', 'c']
  else if c = '*' then ['\\', '2', 'a']
  else if c = '(' then ['\\', '2', '8']
  else if c = ')' then ['\\', '2', '9']
  else if c = Char.ofNat 0 then ['\\', '0', '0']
  else [c]

/-- ldap.filter.escape_filter_chars on a string. -/
def escape_filter_chars (s : String) : String :=
  String.mk (s.data.foldr (fun c acc => escapeChar c ++ acc) [])

/-- Backend.get_groups of backendAD.py: escape the username, resolve
its DN, search the ordinary group container and then the builtin
container with the same member filter, and return the CN of every
entry of the concatenated result lists, in order. -/
def get_groups (st : ADState) (getUser : String → Except PyErr String)
    (bindO1 bindO2 : Option LdapErr)
    (searchO : String → String → Except LdapErr (List GroupEntry))
    (username : String) : List Event × Except PyErr (List String) :=
  let uname := escape_filter_chars username
  match getUser uname with
  | .error e => ([], .error e)
  | .ok userdn =>
    let searchfilter := "(member=" ++ userdn ++ ")"
    match search_group st bindO1 searchO searchfilter st.groupdn with
    | (t1, .error e) => (t1, .error e)
    | (t1, .ok g1) =>
      match search_group st bindO2 searchO searchfilter st.builtin with
      | (t2, .error e) => (t1 ++ t2, .error e)
      | (t2, .ok g2) => (t1 ++ t2, .ok ((g1 ++ g2).map GroupEntry.cn))

/-- Backend.auth of backendAD.py: connect a fresh session and simple
bind as username@domain.  An invalid-credentials failure is caught,
the session closed and False returned; success closes the session and
returns True; every other bind failure propagates as an exception.
bindO gives the outcome of the simple bind for a given identity and
secret (none is success). -/
def auth (st : ADState) (bindO : String → String → Option LdapErr)
    (username password : String) : List Event × Except PyErr Bool :=
  let binddn := username ++ "@" ++ st.domain
  match bindO binddn password with
  | some LdapErr.invalidCredentials => ([.connect, .unbind], .ok false)
  | some e => ([.connect], .error (.ldap e))
  | none => ([.connect, .bindAs binddn, .unbind], .ok true)

/-! Role catalog loading.  The Roles class itself (ldapcherry/roles.py)
is not among the provided sources; only its test file is.  The loader
is therefore modelled from the specification. -/

inductive RoleErr
  | missingRolesFile
  | missingKey
  | duplicateRoleKey
  | duplicateRoleContent
deriving DecidableEq, Repr

/-- One backend assignment of a role: backend name, attribute
assignments, group assignments. -/
abbrev BackendAssign := String × List (String × String) × List String

/-- One role record of the configuration source. -/
structure RoleRecord where
  key : String
  display_name : Option String
  backends : List BackendAssign
deriving DecidableEq, Repr

/-- Insertion into a list sorted by the given comparison. -/
def insertSorted {α : Type} (le : α → α → Bool) (x : α) : List α → List α
  | [] => [x]
  | y :: ys => if le x y then x :: y :: ys else y :: insertSorted le x ys

/-- Insertion sort by the given comparison. -/
def sortWith {α : Type} (le : α → α → Bool) : List α → List α
  | [] => []
  | x :: xs => insertSorted le x (sortWith le xs)

/-- Code-point lexicographic comparison of character lists. -/
def charListLe : List Char → List Char → Bool
  | [], _ => true
  | _ :: _, [] => false
  | a :: as, b :: bs =>
    if a.toNat < b.toNat then true
    else if b.toNat < a.toNat then false
    else charListLe as bs

def strLe (a b : String) : Bool := charListLe a.data b.data

/-- Modelled from the spec: the canonical resolved form of one backend
assignment (attribute and group assignments in sorted order), used for
duplicate-content detection by the Load algorithm of the Role Engine;
the Roles implementation itself is not among the provided sources. -/
def canonBackend (b : BackendAssign) : BackendAssign :=
  (b.1, sortWith (fun x y => strLe x.1 y.1) b.2.1, sortWith strLe b.2.2)

/-- Modelled from the spec: the order-independent canonical resolved
content of a role record. -/
def canonical (r : RoleRecord) : List BackendAssign :=
  sortWith (fun x y => strLe x.1 y.1) (r.backends.map canonBackend)

/-- Modelled from the spec: the validating pass of Load over the parsed
role records, accumulating a key set and a canonical-content set. -/
def loadRolesGo : List RoleRecord → List String → List (List BackendAssign) →
    List (String × RoleRecord) → Except RoleErr (List (String × RoleRecord))
  | [], _, _, acc => .ok acc
  | r :: rest, keys, contents, acc =>
    if r.display_name.isNone then .error .missingKey
    else if r.backends.isEmpty then .error .missingKey
    else if keys.contains r.key then .error .duplicateRoleKey
    else if contents.contains (canonical r) then .error .duplicateRoleContent
    else loadRolesGo rest (r.key :: keys) (canonical r :: contents) (acc ++ [(r.key, r)])

/-- Modelled from the spec: Load of the Role Engine
(ldapcherry/roles.py, not among the provided sources).  A missing
source fails with missingRolesFile before any record is examined; a
record without display name or without backend assignments fails with
missingKey; a key collision fails with duplicateRoleKey; a canonical
content collision fails with duplicateRoleContent. -/
def loadRoles : Option (List RoleRecord) → Except RoleErr (List (String × RoleRecord))
  | none => .error .missingRolesFile
  | some records => loadRolesGo records [] [] []

/-! A concrete adapter state, the one initAD computes for the domain
dc.ldapcherry.org (the domain of the comment in backendAD.py). -/

def adEx : ADState :=
  ⟨"dc.ldapcherry.org",
   "administrator@dc.ldapcherry.org",
   "dc=dc,DC=ldapcherry,DC=org",
   "OU=Users,OU=dc,dc=dc,DC=ldapcherry,DC=org",
   "OU=Users,OU=dc,dc=dc,DC=ldapcherry,DC=org",
   "CN=Builtin,dc=dc,DC=ldapcherry,DC=org",
   ["cn", "unicodePwd"]⟩

/-! Shared helper lemmas. -/

theorem strDataAppend (s t : String) : (s ++ t).data = s.data ++ t.data := rfl

theorem str_ext {s t : String} (h : s.data = t.data) : s = t := by
  cases s; cases t; exact congrArg String.mk h

theorem list_append_cancel_left {α : Type} :
    ∀ (a b c : List α), a ++ b = a ++ c → b = c
  | [], _, _, h => h
  | x :: xs, b, c, h => by
    rw [List.cons_append, List.cons_append] at h
    injection h with h1 h2
    exact list_append_cancel_left xs b c h2

theorem str_append_cancel_left (a s t : String) (h : a ++ s = a ++ t) : s = t := by
  have hd : (a ++ s).data = (a ++ t).data := by rw [h]
  rw [strDataAppend, strDataAppend] at hd
  exact str_ext (list_append_cancel_left a.data s.data t.data hd)

/-- First character of a string, used to separate the two container
shapes. -/
def headChar (s : String) : Option Char := s.data.head?

theorem headChar_userContainer (f b : String) :
    headChar ("OU=Users,OU=" ++ f ++ "," ++ b) = some 'O' := rfl

theorem headChar_builtinContainer (b : String) :
    headChar ("CN=Builtin," ++ b) = some 'C' := rfl

theorem splitDot_ne_nil (l : List Char) : splitDot l ≠ [] := by
  cases l with
  | nil => simp [splitDot]
  | cons c rest =>
    simp only [splitDot]
    by_cases hc : c = '.'
    · simp [hc]
    · simp only [if_neg hc]
      cases h : splitDot rest <;> simp

/-- The regex substitution of the constructor computes exactly the
split-and-join form: replacing every dot by ",DC=" is joining the
dot-separated components with ",DC=" separators. -/
theorem subDots_eq_join (l : List Char) : subDots l = dcJoinTail (splitDot l) := by
  induction l with
  | nil => rfl
  | cons c rest ih =>
    by_cases hc : c = '.'
    · subst hc
      simp only [subDots, splitDot, if_pos rfl]
      cases h : splitDot rest with
      | nil => exact absurd h (splitDot_ne_nil rest)
      | cons g gs =>
        rw [ih, h]
        rfl
    · simp only [subDots, splitDot, if_neg hc]
      cases h : splitDot rest with
      | nil => exact absurd h (splitDot_ne_nil rest)
      | cons g gs =>
        rw [ih, h]
        cases gs with
        | nil => rfl
        | cons g2 gs2 => rfl

/-- Shape of every state the constructor accepts, plus the accepted
attribute-list facts. -/
theorem initAD_ok (domain login : String) (al : List String) (st : ADState)
    (h : (initAD domain login al).2 = Except.ok st) :
    st = ⟨domain, login ++ "@" ++ domain,
          "dc=" ++ String.mk (subDots domain.data),
          "OU=Users,OU=" ++ String.mk ((splitDot domain.data).headD []) ++ ","
            ++ ("dc=" ++ String.mk (subDots domain.data)),
          "OU=Users,OU=" ++ String.mk ((splitDot domain.data).headD []) ++ ","
            ++ ("dc=" ++ String.mk (subDots domain.data)),
          "CN=Builtin," ++ ("dc=" ++ String.mk (subDots domain.data)),
          al⟩
    ∧ "cn" ∈ al ∧ "unicodePwd" ∈ al := by
  by_cases h1 : "cn" ∈ al
  · by_cases h2 : "unicodePwd" ∈ al
    · simp only [initAD, if_pos h1, if_pos h2] at h
      injection h with h3
      exact ⟨h3.symm, h1, h2⟩
    · simp [initAD, if_pos h1, if_neg h2] at h
  · simp [initAD, if_neg h1] at h

/-- The ordinary group container and the builtin container of an
accepted state are distinct strings. -/
theorem initAD_groupdn_ne_builtin (domain login : String) (al : List String) (st : ADState)
    (h : (initAD domain login al).2 = Except.ok st) : st.groupdn ≠ st.builtin := by
  obtain ⟨hst, -, -⟩ := initAD_ok domain login al st h
  subst hst
  intro he
  have hO := headChar_userContainer (String.mk ((splitDot domain.data).headD []))
    ("dc=" ++ String.mk (subDots domain.data))
  have hC := headChar_builtinContainer ("dc=" ++ String.mk (subDots domain.data))
  rw [show headChar ("OU=Users,OU=" ++ String.mk ((splitDot domain.data).headD []) ++ ","
      ++ ("dc=" ++ String.mk (subDots domain.data)))
      = headChar ("CN=Builtin," ++ ("dc=" ++ String.mk (subDots domain.data))) from
      congrArg headChar he] at hO
  rw [hC] at hO
  exact absurd hO (by decide)

/-! Dict lemmas. -/

theorem amGet_amErase_self (m : AttrMap) (k : String) : amGet (amErase m k) k = none := by
  induction m with
  | nil => rfl
  | cons p rest ih =>
    cases p with
    | mk k1 v =>
      by_cases h : k1 = k <;> simp [amErase, amGet, h, ih]

theorem amGet_amErase_ne (m : AttrMap) (k j : String) (h : j ≠ k) :
    amGet (amErase m k) j = amGet m j := by
  have hkj : k ≠ j := fun hh => h hh.symm
  induction m with
  | nil => rfl
  | cons p rest ih =>
    cases p with
    | mk k1 v =>
      by_cases h1 : k1 = k
      · subst h1
        simp [amErase, amGet, hkj, ih]
      · simp only [amErase, if_neg h1]
        by_cases h2 : k1 = j <;> simp [amGet, h2, ih]

theorem amGet_amSet_self (m : AttrMap) (k v : String) : amGet (amSet m k v) k = some v := by
  induction m with
  | nil => simp [amSet, amGet]
  | cons p rest ih =>
    cases p with
    | mk k1 v1 =>
      by_cases h1 : k1 = k
      · subst h1
        simp [amSet, amGet]
      · simp [amSet, amGet, h1, ih]

theorem amGet_amSet_ne (m : AttrMap) (k j v : String) (h : j ≠ k) :
    amGet (amSet m k v) j = amGet m j := by
  have hkj : k ≠ j := fun hh => h hh.symm
  induction m with
  | nil => simp [amSet, amGet, hkj]
  | cons p rest ih =>
    cases p with
    | mk k1 v1 =>
      by_cases h1 : k1 = k
      · subst h1
        simp [amSet, amGet, hkj]
      · simp only [amSet, if_neg h1]
        by_cases h2 : k1 = j <;> simp [amGet, h2, ih]

/-! Claim theorems. -/

/-- Claim C3: constructing an Active-Directory adapter whose configured
attribute list omits cn or unicodePwd fails with the MissingAttr
configuration error, and only then; the constructor emits no session
event at all, so the check happens before any network connection is
attempted. -/
theorem C3_required_attr_check (domain login : String) (al : List String) :
    (initAD domain login al).1 = []
    ∧ ((initAD domain login al).2 = .error .missingAttr ↔
        ("cn" ∉ al ∨ "unicodePwd" ∉ al)) := by
  constructor
  · by_cases h1 : "cn" ∈ al <;> by_cases h2 : "unicodePwd" ∈ al <;>
      simp [initAD, h1, h2]
  · by_cases h1 : "cn" ∈ al <;> by_cases h2 : "unicodePwd" ∈ al <;>
      simp [initAD, h1, h2]

/-- Claim C7 counterexample: for the domain dc.ldapcherry.org the code
derives the base DN "dc=dc,DC=ldapcherry,DC=org", whereas joining every
dot-separated component as a "DC=" segment, as the claim words it,
yields "DC=dc,DC=ldapcherry,DC=org"; the first segment tag of the code
is lowercase, so the two strings differ. -/
theorem C7_basedn_counterexample :
    (initAD "dc.ldapcherry.org" "administrator" ["cn", "unicodePwd"]).2 = .ok adEx
    ∧ adEx.basedn = "dc=dc,DC=ldapcherry,DC=org"
    ∧ specBasedn "dc.ldapcherry.org" = "DC=dc,DC=ldapcherry,DC=org"
    ∧ adEx.basedn ≠ specBasedn "dc.ldapcherry.org" := by
  refine ⟨rfl, rfl, rfl, ?_⟩
  decide

/-- Claim C7 as amended: the adapter derives the base DN by splitting
the domain on dots and joining the components as "DC=" segments except
that the first segment keeps the lowercase tag "dc="; the default
user/group container is OU=Users,OU=first-label,base-dn and the builtin
container is CN=Builtin,base-dn. -/
theorem C7_dn_derivation (domain login : String) (al : List String) (st : ADState)
    (h : (initAD domain login al).2 = Except.ok st) :
    st.basedn = "dc=" ++ String.mk (dcJoinTail (splitDot domain.data))
    ∧ st.userdn = "OU=Users,OU=" ++ String.mk ((splitDot domain.data).headD []) ++ ","
        ++ st.basedn
    ∧ st.groupdn = st.userdn
    ∧ st.builtin = "CN=Builtin," ++ st.basedn := by
  obtain ⟨hst, -, -⟩ := initAD_ok domain login al st h
  subst hst
  exact ⟨by rw [subDots_eq_join], rfl, rfl, rfl⟩

/-- Claim C7 amended, witness at the concrete domain of the repository
comment. -/
theorem C7_dn_derivation_witness :
    adEx.basedn = "dc=" ++ String.mk (dcJoinTail (splitDot "dc.ldapcherry.org".data))
    ∧ adEx.userdn = "OU=Users,OU="
        ++ String.mk ((splitDot "dc.ldapcherry.org".data).headD []) ++ "," ++ adEx.basedn
    ∧ adEx.groupdn = adEx.userdn
    ∧ adEx.builtin = "CN=Builtin," ++ adEx.basedn :=
  C7_dn_derivation "dc.ldapcherry.org" "administrator" ["cn", "unicodePwd"] adEx rfl

/-- Claim C1: for every group name g, the group-reference resolution of
an initialized adapter maps g under the builtin container (which equals
CN=Builtin,base-dn) exactly when g belongs to the closed built-in list
AD_BUILTIN_GROUPS, and otherwise under the ordinary group container;
the classification is the explicit membership test of the definition. -/
theorem C1_builtin_group_routing (domain login : String) (al : List String) (st : ADState)
    (h : (initAD domain login al).2 = Except.ok st) (g : String) :
    (build_groupdn st [g] = ["cn=" ++ g ++ "," ++ st.builtin] ↔ g ∈ AD_BUILTIN_GROUPS)
    ∧ (g ∉ AD_BUILTIN_GROUPS → build_groupdn st [g] = ["cn=" ++ g ++ "," ++ st.groupdn])
    ∧ st.builtin = "CN=Builtin," ++ st.basedn := by
  have hne := initAD_groupdn_ne_builtin domain login al st h
  refine ⟨⟨?_, ?_⟩, ?_, ?_⟩
  · intro hb
    by_cases hm : g ∈ AD_BUILTIN_GROUPS
    · exact hm
    · exfalso
      simp only [build_groupdn, List.map_cons, List.map_nil] at hb
      rw [if_neg hm] at hb
      injection hb with h1 h2
      exact hne (str_append_cancel_left ("cn=" ++ g ++ ",") _ _ h1)
  · intro hm
    simp [build_groupdn, hm]
  · intro hm
    simp [build_groupdn, hm]
  · obtain ⟨hst, -, -⟩ := initAD_ok domain login al st h
    rw [hst]

/-- Claim C1, witness: Administrators is routed under the builtin
container, the non-built-in name Devs under the ordinary container. -/
theorem C1_builtin_group_routing_witness :
    build_groupdn adEx ["Administrators"]
      = ["cn=" ++ "Administrators" ++ "," ++ adEx.builtin]
    ∧ build_groupdn adEx ["Devs"] = ["cn=" ++ "Devs" ++ "," ++ adEx.groupdn] :=
  ⟨(C1_builtin_group_routing "dc.ldapcherry.org" "administrator" ["cn", "unicodePwd"]
      adEx rfl "Administrators").1.mpr (by decide),
   (C1_builtin_group_routing "dc.ldapcherry.org" "administrator" ["cn", "unicodePwd"]
      adEx rfl "Devs").2.1 (by decide)⟩

/-! Helper facts about add_user shared by several claims. -/

theorem add_user_map_shape (st : ADState) (o : Oracle) (attrs : AttrMap)
    (pw sam cnv : String)
    (hpw : amGet attrs "unicodePwd" = some pw)
    (hsam : amGet attrs "sAMAccountName" = some sam)
    (hcn : amGet attrs "cn" = some cnv) :
    (add_user st o attrs).2.1
      = amSet (amSet (amErase attrs "unicodePwd") "userPrincipalName"
          (sam ++ "@" ++ st.domain)) "displayName" cnv := by
  have h1 : amGet (amErase attrs "unicodePwd") "sAMAccountName" = some sam := by
    rw [amGet_amErase_ne _ _ _ (by decide)]; exact hsam
  have h2 : amGet (amSet (amErase attrs "unicodePwd") "userPrincipalName"
      (sam ++ "@" ++ st.domain)) "cn" = some cnv := by
    rw [amGet_amSet_ne _ _ _ _ (by decide), amGet_amErase_ne _ _ _ (by decide)]; exact hcn
  simp only [add_user, hpw, h1, h2]
  cases o 0 <;> cases o 1 <;> cases o 2 <;> cases o 3 <;> rfl

/-- Claim C2: add_user injects the principal name derived from the key
attribute and the domain into the attribute map before the generic
creation event, which is always the first emitted event; on a fully
successful run the generic creation is followed by exactly two
modifications, a replace of unicodePwd with the dialect encoding and a
replace of UserAccountControl with the decimal rendering of
NORMAL_ACCOUNT (a flags value whose disable bit is clear), then the
unbind; and no run of add_user ever deletes the created entry. -/
theorem C2_add_user_sequence (st : ADState) (o : Oracle) (attrs : AttrMap)
    (pw sam cnv : String)
    (hpw : amGet attrs "unicodePwd" = some pw)
    (hsam : amGet attrs "sAMAccountName" = some sam)
    (hcn : amGet attrs "cn" = some cnv) :
    amGet ((add_user st o attrs).2.1) "userPrincipalName" = some (sam ++ "@" ++ st.domain)
    ∧ (add_user st o attrs).1.head?
        = some (.genericAddUser ((add_user st o attrs).2.1))
    ∧ ((∀ n, o n = none) →
        (add_user st o attrs).1
          = [.genericAddUser (amSet (amSet (amErase attrs "unicodePwd") "userPrincipalName"
               (sam ++ "@" ++ st.domain)) "displayName" cnv),
             .bind st.binddn,
             .modify ("CN=" ++ cnv ++ "," ++ st.userdn)
               [⟨ModTy.replace, "unicodePwd", [utf16le ("\"" ++ pw ++ "\"")]⟩],
             .modify ("CN=" ++ cnv ++ "," ++ st.userdn)
               [⟨ModTy.replace, "UserAccountControl", [asciiBytes (Nat.repr NORMAL_ACCOUNT)]⟩],
             .unbind])
    ∧ (∀ d, Event.deleteEntry d ∉ (add_user st o attrs).1)
    ∧ NORMAL_ACCOUNT &&& ACCOUNTDISABLE = 0 := by
  have h1 : amGet (amErase attrs "unicodePwd") "sAMAccountName" = some sam := by
    rw [amGet_amErase_ne _ _ _ (by decide)]; exact hsam
  have h2 : amGet (amSet (amErase attrs "unicodePwd") "userPrincipalName"
      (sam ++ "@" ++ st.domain)) "cn" = some cnv := by
    rw [amGet_amSet_ne _ _ _ _ (by decide), amGet_amErase_ne _ _ _ (by decide)]; exact hcn
  have hmap := add_user_map_shape st o attrs pw sam cnv hpw hsam hcn
  refine ⟨?_, ?_, ?_, ?_, by decide⟩
  · rw [hmap, amGet_amSet_ne _ _ _ _ (by decide), amGet_amSet_self]
  · rw [hmap]
    simp only [add_user, hpw, h1, h2]
    cases o 0 <;> cases o 1 <;> cases o 2 <;> cases o 3 <;> rfl
  · intro hall
    simp only [add_user, hpw, h1, h2, hall]
    rfl
  · intro d
    simp only [add_user, hpw, h1, h2]
    cases o 0 <;> cases o 1 <;> cases o 2 <;> cases o 3 <;> simp

/-- Claim C2, witness: a fully successful creation of user bob. -/
theorem C2_add_user_sequence_witness :
    (add_user adEx (fun _ => none)
        [("cn", "Bob"), ("sAMAccountName", "bob"), ("unicodePwd", "pw")]).1
      = [.genericAddUser (amSet (amSet (amErase
             [("cn", "Bob"), ("sAMAccountName", "bob"), ("unicodePwd", "pw")]
             "unicodePwd") "userPrincipalName" ("bob" ++ "@" ++ adEx.domain))
             "displayName" "Bob"),
         .bind adEx.binddn,
         .modify ("CN=" ++ "Bob" ++ "," ++ adEx.userdn)
           [⟨ModTy.replace, "unicodePwd", [utf16le ("\"" ++ "pw" ++ "\"")]⟩],
         .modify ("CN=" ++ "Bob" ++ "," ++ adEx.userdn)
           [⟨ModTy.replace, "UserAccountControl", [asciiBytes (Nat.repr NORMAL_ACCOUNT)]⟩],
         .unbind] :=
  (C2_add_user_sequence adEx (fun _ => none)
      [("cn", "Bob"), ("sAMAccountName", "bob"), ("unicodePwd", "pw")]
      "pw" "bob" "Bob" rfl rfl rfl).2.2.1 (fun _ => rfl)

/-- Claim C10: add_user and set_attrs mutate the caller-supplied
attribute mapping in place; the mapping the caller holds when the call
returns has lost unicodePwd, add_user further overwrites displayName
with the cn value and adds userPrincipalName, so the mapping differs
from what was passed in. -/
theorem C10_caller_map_mutation (st : ADState) (o : Oracle)
    (getUser : String → Except PyErr String) (username : String)
    (attrs battrs : AttrMap) (pw sam cnv bpw : String)
    (hpw : amGet attrs "unicodePwd" = some pw)
    (hsam : amGet attrs "sAMAccountName" = some sam)
    (hcn : amGet attrs "cn" = some cnv)
    (hbpw : amGet battrs "unicodePwd" = some bpw) :
    (amGet ((add_user st o attrs).2.1) "unicodePwd" = none
     ∧ amGet ((add_user st o attrs).2.1) "displayName" = some cnv
     ∧ amGet ((add_user st o attrs).2.1) "userPrincipalName" = some (sam ++ "@" ++ st.domain)
     ∧ (add_user st o attrs).2.1 ≠ attrs)
    ∧ (amGet ((set_attrs st getUser o username battrs).2.1) "unicodePwd" = none
       ∧ (set_attrs st getUser o username battrs).2.1 ≠ battrs) := by
  have hmap := add_user_map_shape st o attrs pw sam cnv hpw hsam hcn
  have hanone : amGet ((add_user st o attrs).2.1) "unicodePwd" = none := by
    rw [hmap, amGet_amSet_ne _ _ _ _ (by decide), amGet_amSet_ne _ _ _ _ (by decide),
      amGet_amErase_self]
  have hsshape : (set_attrs st getUser o username battrs).2.1
      = amErase battrs "unicodePwd" := by
    simp only [set_attrs, hbpw]
    cases getUser username with
    | error e => rfl
    | ok userdn =>
      rcases hsp : set_password st o userdn bpw false with ⟨t, r⟩
      cases r <;> simp [hsp]
  have hsnone : amGet ((set_attrs st getUser o username battrs).2.1) "unicodePwd" = none := by
    rw [hsshape, amGet_amErase_self]
  refine ⟨⟨hanone, ?_, ?_, ?_⟩, hsnone, ?_⟩
  · rw [hmap, amGet_amSet_self]
  · rw [hmap, amGet_amSet_ne _ _ _ _ (by decide), amGet_amSet_self]
  · intro he
    rw [he, hpw] at hanone
    exact Option.noConfusion hanone
  · intro he
    rw [he, hbpw] at hsnone
    exact Option.noConfusion hsnone

/-- Claim C10, witness. -/
theorem C10_caller_map_mutation_witness :
    (amGet ((add_user adEx (fun _ => none)
        [("cn", "Bob"), ("sAMAccountName", "bob"), ("unicodePwd", "pw")]).2.1)
        "unicodePwd" = none
     ∧ amGet ((add_user adEx (fun _ => none)
        [("cn", "Bob"), ("sAMAccountName", "bob"), ("unicodePwd", "pw")]).2.1)
        "displayName" = some "Bob"
     ∧ amGet ((add_user adEx (fun _ => none)
        [("cn", "Bob"), ("sAMAccountName", "bob"), ("unicodePwd", "pw")]).2.1)
        "userPrincipalName" = some ("bob" ++ "@" ++ adEx.domain)
     ∧ (add_user adEx (fun _ => none)
        [("cn", "Bob"), ("sAMAccountName", "bob"), ("unicodePwd", "pw")]).2.1
        ≠ [("cn", "Bob"), ("sAMAccountName", "bob"), ("unicodePwd", "pw")])
    ∧ (amGet ((set_attrs adEx (fun _ => .ok "CN=Bob,OU=Users,OU=dc,dc=dc,DC=ldapcherry,DC=org")
          (fun _ => none) "bob" [("unicodePwd", "np")]).2.1) "unicodePwd" = none
       ∧ (set_attrs adEx (fun _ => .ok "CN=Bob,OU=Users,OU=dc,dc=dc,DC=ldapcherry,DC=org")
          (fun _ => none) "bob" [("unicodePwd", "np")]).2.1 ≠ [("unicodePwd", "np")]) :=
  C10_caller_map_mutation adEx (fun _ => none)
    (fun _ => .ok "CN=Bob,OU=Users,OU=dc,dc=dc,DC=ldapcherry,DC=org") "bob"
    [("cn", "Bob"), ("sAMAccountName", "bob"), ("unicodePwd", "pw")]
    [("unicodePwd", "np")] "pw" "bob" "Bob" "np" rfl rfl rfl rfl

/-- Claim C4: the only modification the reachable password-setting
routine issues is a single replace of the dedicated attribute
unicodePwd whose one value is the quotation-mark wrapped password
encoded UTF-16 little-endian, and the password follow-up of add_user
issues exactly the same wire value. -/
theorem C4_password_wire_encoding (st : ADState) (o o2 : Oracle) (name p : String) (b : Bool)
    (attrs : AttrMap) (pw sam cnv : String)
    (h0 : o 0 = none)
    (hpw : amGet attrs "unicodePwd" = some pw)
    (hsam : amGet attrs "sAMAccountName" = some sam)
    (hcn : amGet attrs "cn" = some cnv)
    (hall : ∀ n, o2 n = none) :
    (set_password st o name p b).1.filter isModify
      = [Event.modify (if b then "CN=" ++ name ++ "," ++ st.userdn else name)
           [⟨ModTy.replace, "unicodePwd", [utf16le ("\"" ++ p ++ "\"")]⟩]]
    ∧ (add_user st o2 attrs).1.filter isPwModify
      = [Event.modify ("CN=" ++ cnv ++ "," ++ st.userdn)
           [⟨ModTy.replace, "unicodePwd", [utf16le ("\"" ++ pw ++ "\"")]⟩]] := by
  have h1 : amGet (amErase attrs "unicodePwd") "sAMAccountName" = some sam := by
    rw [amGet_amErase_ne _ _ _ (by decide)]; exact hsam
  have h2 : amGet (amSet (amErase attrs "unicodePwd") "userPrincipalName"
      (sam ++ "@" ++ st.domain)) "cn" = some cnv := by
    rw [amGet_amSet_ne _ _ _ _ (by decide), amGet_amErase_ne _ _ _ (by decide)]; exact hcn
  constructor
  · simp only [set_password, h0]
    cases o 1 <;> rfl
  · simp only [add_user, hpw, h1, h2, hall]
    rfl

/-- Claim C4, witness: the concrete wire bytes for the password aA. -/
theorem C4_password_wire_encoding_witness :
    (set_password adEx (fun _ => none) "bob" "aA" true).1.filter isModify
      = [Event.modify ("CN=" ++ "bob" ++ "," ++ adEx.userdn)
           [⟨ModTy.replace, "unicodePwd", [utf16le ("\"" ++ "aA" ++ "\"")]⟩]]
    ∧ utf16le ("\"" ++ "aA" ++ "\"") = [34, 0, 97, 0, 65, 0, 34, 0] :=
  ⟨(C4_password_wire_encoding adEx (fun _ => none) (fun _ => none) "bob" "aA" true
      [("cn", "Bob"), ("sAMAccountName", "bob"), ("unicodePwd", "pw")]
      "pw" "bob" "Bob" rfl rfl rfl rfl (fun _ => rfl)).1,
   by decide⟩

/-- Claim C5: auth opens a fresh session and binds as the
user-principal-name username@domain; a successful bind yields True
(after closing the session), an invalid-credentials failure yields the
boolean False rather than an exception, and every other bind failure
propagates as a raised ldap error, which is a different value from
either boolean outcome. -/
theorem C5_auth_outcomes (st : ADState) (bindO : String → String → Option LdapErr)
    (u p : String) :
    (bindO (u ++ "@" ++ st.domain) p = none →
      auth st bindO u p
        = ([.connect, .bindAs (u ++ "@" ++ st.domain), .unbind], .ok true))
    ∧ (bindO (u ++ "@" ++ st.domain) p = some .invalidCredentials →
        (auth st bindO u p).2 = .ok false)
    ∧ (∀ e, e ≠ LdapErr.invalidCredentials →
        bindO (u ++ "@" ++ st.domain) p = some e →
        (auth st bindO u p).2 = .error (.ldap e))
    ∧ (∀ e, (Except.error (PyErr.ldap e) : Except PyErr Bool) ≠ .ok false
        ∧ (Except.error (PyErr.ldap e) : Except PyErr Bool) ≠ .ok true) := by
  refine ⟨?_, ?_, ?_, ?_⟩
  · intro h
    simp [auth, h]
  · intro h
    simp [auth, h]
  · intro e he h
    cases e with
    | invalidCredentials => exact absurd rfl he
    | serverDown => simp [auth, h]
    | noSuchObject => simp [auth, h]
    | other code => simp [auth, h]
  · intro e
    exact ⟨fun hh => Except.noConfusion hh, fun hh => Except.noConfusion hh⟩

/-- Claim C5, witness: the three bind outcomes at concrete inputs. -/
theorem C5_auth_outcomes_witness :
    auth adEx (fun _ _ => none) "bob" "pw"
      = ([.connect, .bindAs ("bob" ++ "@" ++ adEx.domain), .unbind], .ok true)
    ∧ (auth adEx (fun _ _ => some .invalidCredentials) "bob" "pw").2 = .ok false
    ∧ (auth adEx (fun _ _ => some .serverDown) "bob" "pw").2
        = .error (.ldap .serverDown) :=
  ⟨(C5_auth_outcomes adEx (fun _ _ => none) "bob" "pw").1 rfl,
   (C5_auth_outcomes adEx (fun _ _ => some .invalidCredentials) "bob" "pw").2.1 rfl,
   (C5_auth_outcomes adEx (fun _ _ => some .serverDown) "bob" "pw").2.2.1
     .serverDown (by decide) rfl⟩

/-- Claim C8 evaluation: every call of the password-setting routine
whose service bind succeeds reaches the bound state and returns or
raises without ever emitting an unbind, so the bound session is leaked
on every such path, success included. -/
theorem C8_set_password_leaks (st : ADState) (o : Oracle) (name p : String) (b : Bool)
    (h0 : o 0 = none) :
    Event.bind st.binddn ∈ (set_password st o name p b).1
    ∧ Event.unbind ∉ (set_password st o name p b).1 := by
  simp only [set_password, h0]
  cases o 1 <;> simp

/-- Claim C8, witness: a fully successful _set_password call leaves
its session open. -/
theorem C8_set_password_leaks_witness :
    Event.bind adEx.binddn ∈ (set_password adEx (fun _ => none) "bob" "secret" true).1
    ∧ Event.unbind ∉ (set_password adEx (fun _ => none) "bob" "secret" true).1 :=
  C8_set_password_leaks adEx (fun _ => none) "bob" "secret" true rfl

/-- Claim C6 counterexample: a directory in which a group named Users
(a name that exists in the builtin subtree and may equally be created
as an ordinary group) is returned by the searches of both containers
makes get_groups return the name twice: the result is the plain
concatenation of the two searches, not a duplicate-free union. -/
theorem C6_get_groups_counterexample :
    (initAD "dc.ldapcherry.org" "administrator" ["cn", "unicodePwd"]).2 = .ok adEx
    ∧ (get_groups adEx (fun _ => .ok "CN=bob,OU=Users,OU=dc,dc=dc,DC=ldapcherry,DC=org")
        none none (fun _ _ => .ok [⟨"CN=Users,X", "Users"⟩]) "bob").2
      = .ok ["Users", "Users"]
    ∧ ¬ (["Users", "Users"] : List String).Nodup := by
  refine ⟨rfl, rfl, ?_⟩
  decide

/-- Claim C6 as amended: get_groups searches the ordinary group
container and then the builtin container with the same membership
filter and returns the concatenation of the group names found by the
two searches, in order and without any deduplication. -/
theorem C6_get_groups_concatenation (st : ADState)
    (getUser : String → Except PyErr String)
    (searchO : String → String → Except LdapErr (List GroupEntry))
    (username userdn : String) (g1 g2 : List GroupEntry)
    (hu : getUser (escape_filter_chars username) = .ok userdn)
    (h1 : searchO st.groupdn ("(member=" ++ userdn ++ ")") = .ok g1)
    (h2 : searchO st.builtin ("(member=" ++ userdn ++ ")") = .ok g2) :
    get_groups st getUser none none searchO username
      = ([.bind st.binddn, .search st.groupdn ("(member=" ++ userdn ++ ")"), .unbind,
          .bind st.binddn, .search st.builtin ("(member=" ++ userdn ++ ")"), .unbind],
         .ok (g1.map GroupEntry.cn ++ g2.map GroupEntry.cn)) := by
  simp [get_groups, search_group, hu, h1, h2]

/-- Claim C6 amended, witness. -/
theorem C6_get_groups_concatenation_witness :
    get_groups adEx (fun _ => .ok "CN=bob,OU=Users,OU=dc,dc=dc,DC=ldapcherry,DC=org")
      none none
      (fun base _ => if base = adEx.groupdn then .ok [⟨"CN=Devs,X", "Devs"⟩]
        else .ok [⟨"CN=Users,Y", "Users"⟩]) "bob"
      = ([.bind adEx.binddn,
          .search adEx.groupdn
            ("(member=" ++ "CN=bob,OU=Users,OU=dc,dc=dc,DC=ldapcherry,DC=org" ++ ")"),
          .unbind,
          .bind adEx.binddn,
          .search adEx.builtin
            ("(member=" ++ "CN=bob,OU=Users,OU=dc,dc=dc,DC=ldapcherry,DC=org" ++ ")"),
          .unbind],
         .ok (([⟨"CN=Devs,X", "Devs"⟩] : List GroupEntry).map GroupEntry.cn
           ++ ([⟨"CN=Users,Y", "Users"⟩] : List GroupEntry).map GroupEntry.cn)) :=
  C6_get_groups_concatenation adEx
    (fun _ => .ok "CN=bob,OU=Users,OU=dc,dc=dc,DC=ldapcherry,DC=org")
    (fun base _ => if base = adEx.groupdn then .ok [⟨"CN=Devs,X", "Devs"⟩]
      else .ok [⟨"CN=Users,Y", "Users"⟩])
    "bob" "CN=bob,OU=Users,OU=dc,dc=dc,DC=ldapcherry,DC=org"
    [⟨"CN=Devs,X", "Devs"⟩] [⟨"CN=Users,Y", "Users"⟩] rfl rfl rfl

/-- Claim C9: the modelled role-catalog Load fails with four pairwise
distinct error kinds: a missing source fails with missingRolesFile, a
role without display name or without backend assignments fails with
missingKey, two roles sharing a key fail with duplicateRoleKey, and two
roles with identical canonical resolved content fail with
duplicateRoleContent. -/
theorem C9_role_load_errors :
    (loadRoles none = .error .missingRolesFile)
    ∧ (∀ (r : RoleRecord) (rest : List RoleRecord),
        (r.display_name = none ∨ r.backends = []) →
        loadRoles (some (r :: rest)) = .error .missingKey)
    ∧ (∀ r1 r2 : RoleRecord, r1.display_name.isSome → r1.backends ≠ [] →
        r2.display_name.isSome → r2.backends ≠ [] → r1.key = r2.key →
        loadRoles (some [r1, r2]) = .error .duplicateRoleKey)
    ∧ (∀ r1 r2 : RoleRecord, r1.display_name.isSome → r1.backends ≠ [] →
        r2.display_name.isSome → r2.backends ≠ [] → r1.key ≠ r2.key →
        canonical r1 = canonical r2 →
        loadRoles (some [r1, r2]) = .error .duplicateRoleContent)
    ∧ (RoleErr.missingRolesFile ≠ .missingKey
       ∧ RoleErr.missingRolesFile ≠ .duplicateRoleKey
       ∧ RoleErr.missingRolesFile ≠ .duplicateRoleContent
       ∧ RoleErr.missingKey ≠ .duplicateRoleKey
       ∧ RoleErr.missingKey ≠ .duplicateRoleContent
       ∧ RoleErr.duplicateRoleKey ≠ .duplicateRoleContent) := by
  refine ⟨rfl, ?_, ?_, ?_, by decide⟩
  · intro r rest h
    rcases h with h | h
    · simp [loadRoles, loadRolesGo, h]
    · cases hd : r.display_name with
      | none => simp [loadRoles, loadRolesGo, hd]
      | some d => simp [loadRoles, loadRolesGo, hd, h]
  · intro r1 r2 hd1 hb1 hd2 hb2 hk
    have hb1e : r1.backends.isEmpty = false := by
      cases hbe : r1.backends with
      | nil => exact absurd hbe hb1
      | cons x xs => rfl
    have hb2e : r2.backends.isEmpty = false := by
      cases hbe : r2.backends with
      | nil => exact absurd hbe hb2
      | cons x xs => rfl
    have hd1n : r1.display_name.isNone = false := by
      cases hde : r1.display_name with
      | none => rw [hde] at hd1; exact absurd hd1 (by decide)
      | some d => rfl
    have hd2n : r2.display_name.isNone = false := by
      cases hde : r2.display_name with
      | none => rw [hde] at hd2; exact absurd hd2 (by decide)
      | some d => rfl
    simp [loadRoles, loadRolesGo, hd1n, hd2n, hb1e, hb2e, hk]
  · intro r1 r2 hd1 hb1 hd2 hb2 hk hc
    have hb1e : r1.backends.isEmpty = false := by
      cases hbe : r1.backends with
      | nil => exact absurd hbe hb1
      | cons x xs => rfl
    have hb2e : r2.backends.isEmpty = false := by
      cases hbe : r2.backends with
      | nil => exact absurd hbe hb2
      | cons x xs => rfl
    have hd1n : r1.display_name.isNone = false := by
      cases hde : r1.display_name with
      | none => rw [hde] at hd1; exact absurd hd1 (by decide)
      | some d => rfl
    have hd2n : r2.display_name.isNone = false := by
      cases hde : r2.display_name with
      | none => rw [hde] at hd2; exact absurd hd2 (by decide)
      | some d => rfl
    have hk2 : r2.key ≠ r1.key := fun hh => hk hh.symm
    simp [loadRoles, loadRolesGo, hd1n, hd2n, hb1e, hb2e, hk2, hc]

/-- Claim C9, witness: concrete role catalogs exhibiting each failure,
including a duplicate-content pair whose backend assignments are listed
in different orders. -/
theorem C9_role_load_errors_witness :
    loadRoles none = .error .missingRolesFile
    ∧ loadRoles (some [⟨"admin", none, [("b1", [("t", "admin")], ["Administrators"])]⟩])
        = .error .missingKey
    ∧ loadRoles (some [⟨"admin", some "Admin", [("b1", [("t", "admin")], ["Administrators"])]⟩,
        ⟨"admin", some "Other", [("b1", [], ["Users"])]⟩])
        = .error .duplicateRoleKey
    ∧ loadRoles (some
        [⟨"users1", some "U1", [("b1", [("a", "1"), ("b", "2")], ["Users", "Guests"]),
            ("b2", [], [])]⟩,
         ⟨"users2", some "U2", [("b2", [], []),
            ("b1", [("b", "2"), ("a", "1")], ["Guests", "Users"])]⟩])
        = .error .duplicateRoleContent :=
  ⟨C9_role_load_errors.1,
   C9_role_load_errors.2.1 ⟨"admin", none, [("b1", [("t", "admin")], ["Administrators"])]⟩
     [] (Or.inl rfl),
   C9_role_load_errors.2.2.1
     ⟨"admin", some "Admin", [("b1", [("t", "admin")], ["Administrators"])]⟩
     ⟨"admin", some "Other", [("b1", [], ["Users"])]⟩
     (by decide) (by decide) (by decide) (by decide) rfl,
   C9_role_load_errors.2.2.2.1
     ⟨"users1", some "U1", [("b1", [("a", "1"), ("b", "2")], ["Users", "Guests"]),
        ("b2", [], [])]⟩
     ⟨"users2", some "U2", [("b2", [], []),
        ("b1", [("b", "2"), ("a", "1")], ["Guests", "Users"])]⟩
     (by decide) (by decide) (by decide) (by decide) (by decide) (by decide)⟩

end Ldapcherry
